import Mathlib

/-!
Shallow embedding of the clock/reset generator (CRG) of
src/litex_boards/targets/efinix_t8f81_dev_kit.py.

The CRG (class _CRG, lines 28-51) instantiates a WaitTimer clocked by the
33.333 MHz reference clock and wires, combinationally:
  rst_pulse        := rst XOR reset_timer.done      (line 44)
  reset_timer.wait := rst                           (line 45)
  pll.reset        := (NOT rst_n) OR rst_pulse      (line 49)
and registers the sys clock domain on the PLL with its reset policy
enabled: pll.create_clkout(self.cd_sys, sys_clk_freq, with_reset=True)
(line 51).

Time is discrete: one tick of the 33.333 MHz reference-clock domain
(cd_rst, reset_less, line 32).  Signals are functions from tick index to
Bool; registered state is computed by structural recursion on the tick
index, so the value read at tick n+1 is the one produced from the inputs
at tick n, matching the synchronous register semantics.

The WaitTimer itself is code of the external LiteX dependency
(litex.gen.genlib.misc.WaitTimer, imported on line 16 of the target
file; the dependency is not part of this repository).  It is embedded
here from the upstream definition, which reads, for a duration t:
  count = Signal(bits_for(t), reset=t)
  comb:  done = (count == 0)
  sync:  If(wait, If(not done, count := count - 1)).Else(count := t)
That is: a registered down-counter with reset value t that decrements
while wait is asserted and not yet done, saturates at zero, and reloads
t on any tick on which wait is deasserted; done is the combinational
comparison count == 0.

The TRIONPLL (litex.soc.cores.clock, also an external dependency) is
modelled from the spec contract only: UNLOCKED -> (reset deasserted) ->
LOCKING -> (after a bounded lock latency) -> LOCKED, any reset assertion
returning to UNLOCKED, and output domains created with the with_reset
policy held in reset whenever the PLL is not locked.
-/

namespace EfinixT8F81

/-- One synchronous update of the WaitTimer count register for a
configured duration t: while wait is asserted the count decrements
unless it already reached zero (done holds the count), and on any tick
with wait deasserted the count reloads its reset value t. -/
def waitTimerStep (t : Nat) (wait : Bool) (count : Nat) : Nat :=
  if wait then (if count == 0 then count else count - 1) else t

/-- Value of the WaitTimer count register at each tick, for duration t
and wait input signal, starting from its reset value t. -/
def waitTimerCount (t : Nat) (wait : Nat → Bool) : Nat → Nat
  | 0 => t
  | n + 1 => waitTimerStep t (wait n) (waitTimerCount t wait n)

/-- The WaitTimer done output: combinational comparison count == 0. -/
def waitTimerDone (t : Nat) (wait : Nat → Bool) (n : Nat) : Bool :=
  waitTimerCount t wait n == 0

/-- CRG line 44 with line 45: rst_pulse = rst XOR reset_timer.done,
where the timer wait input is the rst request itself. -/
def rst_pulse (t : Nat) (rst : Nat → Bool) (n : Nat) : Bool :=
  Bool.xor (rst n) (waitTimerDone t rst n)

/-- CRG line 49: pll.reset = (NOT rst_n) OR rst_pulse, where rst_n is
the active-low user button. -/
def pll_reset (t : Nat) (rst rst_n : Nat → Bool) (n : Nat) : Bool :=
  !(rst_n n) || rst_pulse t rst n

/-- Modelled from the spec: the TRIONPLL lock contract (the PLL itself
is an external LiteX dependency whose internals are out of scope).
Number of consecutive ticks, ending just before tick n, during which
the PLL reset input has been continuously deasserted; any assertion of
reset clears it (the UNLOCKED state). -/
def pllLowTicks (reset : Nat → Bool) : Nat → Nat
  | 0 => 0
  | n + 1 => if reset n then 0 else pllLowTicks reset n + 1

/-- Modelled from the spec: the PLL locked status for a modeled lock
latency L.  Locked is false whenever reset is asserted, and becomes
true only once reset has been deasserted continuously for at least L
ticks (UNLOCKED -> LOCKING -> LOCKED). -/
def pllLocked (L : Nat) (reset : Nat → Bool) (n : Nat) : Bool :=
  !(reset n) && decide (L ≤ pllLowTicks reset n)

/-- Modelled from the spec: an output clock domain created with the
with_reset policy is held in reset whenever the PLL is not locked. -/
def cd_sys_in_reset (withReset : Bool) (L : Nat) (reset : Nat → Bool) (n : Nat) : Bool :=
  withReset && !(pllLocked L reset n)

/-- CRG line 51: the sys clock domain is registered on the PLL with
with_reset=True; it is observed active exactly when it is not held in
reset. -/
def cd_sys_active (L : Nat) (reset : Nat → Bool) (n : Nat) : Bool :=
  !(cd_sys_in_reset true L reset n)

/-- Modelled from the spec: the board reference-clock frequency
(platform.default_clk_freq of the efinix_t8f81_dev_kit platform module,
which is code of this repository not present under src/): 33.333 MHz,
the clk33 input requested on line 36. -/
def default_clk_freq : ℚ := 33333000

/-- CRG line 43: the tick count handed to WaitTimer is
25e-6 * platform.default_clk_freq; WaitTimer truncates its duration
argument to an integer (int(t) in the upstream definition, which is the
floor for a positive value). -/
def waitTimerTicks (f : ℚ) : ℤ :=
  Int.floor ((25 / 1000000 : ℚ) * f)

/-- The concrete timer duration of the reference design, in ticks. -/
def resetTimerDuration : Nat := 833

-- Helper lemmas -----------------------------------------------------------

/-- While the wait input has been held asserted on every tick before n,
the count register has decremented from t down to t - n (saturating). -/
theorem waitTimerCount_held (t : Nat) (rst : Nat → Bool) :
    ∀ n : Nat, (∀ k, k < n → rst k = true) → waitTimerCount t rst n = t - n := by
  intro n
  induction n with
  | zero => intro _; simp [waitTimerCount]
  | succ m ih =>
    intro h
    have hm : rst m = true := h m (Nat.lt_succ_self m)
    have ihm : waitTimerCount t rst m = t - m := ih fun k hk => h k (Nat.lt_succ_of_lt hk)
    simp only [waitTimerCount, waitTimerStep, hm, if_true, ihm]
    by_cases h0 : t - m = 0
    · simp only [h0, beq_self_eq_true, if_true]
      omega
    · have hb : (t - m == 0) = false := by simpa using h0
      simp only [hb, Bool.false_eq_true, if_false]
      omega

/-- On any tick following a tick with wait deasserted, the count
register holds its reload value t. -/
theorem waitTimerCount_reload (t : Nat) (rst : Nat → Bool) (n : Nat)
    (h : rst n = false) : waitTimerCount t rst (n + 1) = t := by
  simp [waitTimerCount, waitTimerStep, h]

/-- The deassertion counter never exceeds the tick index. -/
theorem pllLowTicks_le (reset : Nat → Bool) : ∀ n, pllLowTicks reset n ≤ n := by
  intro n
  induction n with
  | zero => simp [pllLowTicks]
  | succ m ih =>
    cases hr : reset m with
    | false =>
      simp only [pllLowTicks, hr, Bool.false_eq_true, if_false]
      omega
    | true =>
      simp [pllLowTicks, hr]

/-- Every tick counted by the deassertion counter indeed had the PLL
reset input deasserted. -/
theorem pllLowTicks_spec (reset : Nat → Bool) :
    ∀ n, ∀ k, n - pllLowTicks reset n ≤ k → k < n → reset k = false := by
  intro n
  induction n with
  | zero => intro k _ hk; omega
  | succ m ih =>
    intro k hk1 hk2
    cases hr : reset m with
    | true =>
      simp only [pllLowTicks, hr, if_true, Nat.sub_zero] at hk1
      omega
    | false =>
      simp only [pllLowTicks, hr, Bool.false_eq_true, if_false] at hk1
      rcases Nat.lt_succ_iff_lt_or_eq.mp hk2 with hlt | heq
      · exact ih k (by omega) hlt
      · subst heq
        exact hr

-- Claim theorems ----------------------------------------------------------

/-- C2: at every tick, the rst_pulse output equals the exclusive-or of
the current reset request level and the timer done level, recomputed
combinationally each cycle (line 44 of the target file); equivalently,
the pulse is high exactly when the request and the done level differ. -/
theorem C2_pulse_is_xor (t : Nat) (rst : Nat → Bool) (n : Nat) :
    rst_pulse t rst n = Bool.xor (rst n) (waitTimerDone t rst n)
    ∧ (rst_pulse t rst n = true ↔ rst n ≠ waitTimerDone t rst n) := by
  constructor
  · rfl
  · cases h1 : rst n <;> cases h2 : waitTimerDone t rst n <;>
      simp [rst_pulse, h1, h2]

/-- C6: at every tick, the PLL reset input equals the disjunction of
rst_pulse and the negation of the active-low user button rst_n
(line 49 of the target file). -/
theorem C6_pll_reset_is_or (t : Nat) (rst rst_n : Nat → Bool) (n : Nat) :
    pll_reset t rst rst_n n = (rst_pulse t rst n || !(rst_n n)) := by
  simp [pll_reset, Bool.or_comm]

/-- C8: the timer duration handed to WaitTimer on line 43 is the
reference-clock frequency times 25 microseconds; for the 33.333 MHz
reference clock this is 833 ticks, within one tick of the exact
product 833.325. -/
theorem C8_timer_duration_833 :
    waitTimerTicks default_clk_freq = (resetTimerDuration : ℤ)
    ∧ |(25 / 1000000 : ℚ) * default_clk_freq - (resetTimerDuration : ℚ)| ≤ 1 := by
  constructor
  · rw [waitTimerTicks]
    rw [show ((25 / 1000000 : ℚ) * default_clk_freq) = 33333 / 40 by
      norm_num [default_clk_freq]]
    rw [show ((resetTimerDuration : ℤ)) = (833 : ℤ) by norm_num [resetTimerDuration]]
    rw [Int.floor_eq_iff]
    norm_num
  · rw [abs_le]
    constructor <;> norm_num [default_clk_freq, resetTimerDuration]

/-- C9: if the reset request is held asserted for longer than the
configured timer duration t, rst_pulse is high for exactly the first t
ticks and then deasserts while the request is still held: a held reset
level is converted into a pulse whose width is bounded by the timer
duration. -/
theorem C9_held_request_bounded_pulse (t T : Nat) (rst : Nat → Bool)
    (hheld : ∀ k, k < T → rst k = true) (hT : t < T) :
    ∀ n, n < T → rst_pulse t rst n = decide (n < t) := by
  intro n hn
  have hc : waitTimerCount t rst n = t - n :=
    waitTimerCount_held t rst n (fun k hk => hheld k (lt_trans hk hn))
  have hr : rst n = true := hheld n hn
  by_cases hlt : n < t
  · have h0 : t - n ≠ 0 := by omega
    simp [rst_pulse, waitTimerDone, hc, hr, h0, hlt]
  · have h0 : t - n = 0 := by omega
    simp [rst_pulse, waitTimerDone, hc, hr, h0, hlt]

/-- C9 witness: with duration 2 and the request held for 4 ticks, the
pulse is high at tick 1 and low at tick 2. -/
theorem C9_witness :
    rst_pulse 2 (fun _ => true) 1 = decide (1 < 2)
    ∧ rst_pulse 2 (fun _ => true) 2 = decide (2 < 2) :=
  ⟨C9_held_request_bounded_pulse 2 4 (fun _ => true) (fun _ _ => rfl) (by decide)
      1 (by decide),
   C9_held_request_bounded_pulse 2 4 (fun _ => true) (fun _ _ => rfl) (by decide)
      2 (by decide)⟩

/-- C10: if the reset request is held long enough for the timer to
reach done (strictly longer than the duration t) and is then
deasserted at tick T, rst_pulse is low just before the release, rises
for exactly the one tick T, and is low again at tick T+1: the done
output clears one tick after the wait input is released, so the
falling edge of a long request emits a one-tick pulse. -/
theorem C10_release_emits_one_tick_pulse (t T : Nat) (rst : Nat → Bool)
    (ht : 0 < t) (hT : t < T) (hheld : ∀ k, k < T → rst k = true)
    (hoff : rst T = false) (hoff1 : rst (T + 1) = false) :
    rst_pulse t rst (T - 1) = false ∧ rst_pulse t rst T = true
    ∧ rst_pulse t rst (T + 1) = false := by
  have h1 : waitTimerCount t rst (T - 1) = t - (T - 1) :=
    waitTimerCount_held t rst (T - 1) (fun k hk => hheld k (by omega))
  have h2 : waitTimerCount t rst T = t - T :=
    waitTimerCount_held t rst T hheld
  have h3 : waitTimerCount t rst (T + 1) = t :=
    waitTimerCount_reload t rst T hoff
  have e1 : t - (T - 1) = 0 := by omega
  have e2 : t - T = 0 := by omega
  have ht0 : t ≠ 0 := by omega
  have hrT1 : rst (T - 1) = true := hheld (T - 1) (by omega)
  refine ⟨?_, ?_, ?_⟩
  · simp [rst_pulse, waitTimerDone, h1, e1, hrT1]
  · simp [rst_pulse, waitTimerDone, h2, e2, hoff]
  · simp [rst_pulse, waitTimerDone, h3, hoff1, ht0]

/-- C10 witness: duration 1, request held for ticks 0 and 1, released
from tick 2 on; the pulse re-rises at tick 2. -/
theorem C10_witness :
    rst_pulse 1 (fun k => decide (k < 2)) 2 = true :=
  (C10_release_emits_one_tick_pulse 1 2 (fun k => decide (k < 2))
      (by decide) (by decide) (fun k hk => by simpa using hk)
      (by decide) (by decide)).2.1

/-- C1 counterexample: with the configured duration of 833 ticks, a
reset request asserted for a single tick (tick 0 only) yields a
rst_pulse that is high at tick 0 but already low at tick 1; the pulse
is therefore not high on a contiguous interval of at least 833 ticks
from the first assertion edge.  The WaitTimer only counts while its
wait input is held, so an early deassertion reloads the counter and
the XOR collapses with the request. -/
theorem C1_counterexample :
    rst_pulse 833 (fun n => decide (n = 0)) 0 = true
    ∧ rst_pulse 833 (fun n => decide (n = 0)) 1 = false := by
  exact ⟨rfl, rfl⟩

/-- C1 amended: once the reset request transitions to true, rst_pulse
rises at the assertion edge, but when the request is deasserted after R
ticks with R strictly below the timer duration t, the pulse is high for
exactly the R ticks the request itself was held — the minimum-duration
guarantee only applies while the request stays asserted, and a
short-lived request produces an equally short pulse. -/
theorem C1_amended_short_request_short_pulse (t R : Nat) (rst : Nat → Bool)
    (hR : 0 < R) (hRt : R < t) (hrst : ∀ k, rst k = decide (k < R)) :
    ∀ n, rst_pulse t rst n = decide (n < R) := by
  intro n
  rcases lt_trichotomy n R with hn | hn | hn
  · have hc : waitTimerCount t rst n = t - n :=
      waitTimerCount_held t rst n (fun k hk => by
        rw [hrst k]
        simp only [decide_eq_true_eq]
        omega)
    have h0 : t - n ≠ 0 := by omega
    have hr : rst n = true := by
      rw [hrst n]
      simpa using hn
    simp [rst_pulse, waitTimerDone, hc, h0, hr, hn]
  · subst hn
    have hc : waitTimerCount t rst n = t - n :=
      waitTimerCount_held t rst n (fun k hk => by
        rw [hrst k]
        simpa using hk)
    have h0 : t - n ≠ 0 := by omega
    have hr : rst n = false := by
      rw [hrst n]
      simp
    simp [rst_pulse, waitTimerDone, hc, h0, hr]
  · obtain ⟨m, rfl⟩ : ∃ m, n = m + 1 := ⟨n - 1, by omega⟩
    have hm : rst m = false := by
      rw [hrst m]
      simp only [decide_eq_false_iff_not]
      omega
    have hc : waitTimerCount t rst (m + 1) = t :=
      waitTimerCount_reload t rst m hm
    have ht0 : t ≠ 0 := by omega
    have hr : rst (m + 1) = false := by
      rw [hrst (m + 1)]
      simp only [decide_eq_false_iff_not]
      omega
    have hnR : ¬ (m + 1 < R) := by omega
    simp [rst_pulse, waitTimerDone, hc, ht0, hr, hnR]

/-- C1 witness: duration 3, request held for exactly tick 0; at tick 1
the pulse already matches the deasserted request. -/
theorem C1_witness :
    rst_pulse 3 (fun k => decide (k < 1)) 1 = decide (1 < 1) :=
  C1_amended_short_request_short_pulse 3 1 (fun k => decide (k < 1))
    (by decide) (by decide) (fun _ => rfl) 1

/-- C3 counterexample: hold the wait input asserted on every tick; with
the configured duration of 833 ticks the done output is already true at
tick 833 even though wait has never been released, refuting the claim
that the timer stays at not-done and keeps resetting its countdown
while wait is held. -/
theorem C3_counterexample :
    waitTimerDone 833 (fun _ => true) 833 = true := by
  have hc : waitTimerCount 833 (fun _ => true) 833 = 833 - 833 :=
    waitTimerCount_held 833 (fun _ => true) 833 (fun _ _ => rfl)
  simp [waitTimerDone, hc]

/-- C3 amended: while the wait input is held asserted the timer counts
down, and done becomes true once wait has been held for the configured
duration t (done = decide (t ≤ n) after n ticks of continuous wait),
staying true for as long as wait remains held; releasing wait reloads
the countdown, so done is false on the tick after any tick with wait
deasserted. -/
theorem C3_amended_countdown_while_wait_held :
    (∀ (t : Nat) (w : Nat → Bool) (n : Nat), (∀ k, k < n → w k = true) →
        waitTimerDone t w n = decide (t ≤ n))
    ∧ (∀ (t : Nat) (w : Nat → Bool) (n : Nat), 0 < t → w n = false →
        waitTimerDone t w (n + 1) = false) := by
  constructor
  · intro t w n h
    rw [waitTimerDone, waitTimerCount_held t w n h]
    by_cases hle : t ≤ n
    · have h0 : t - n = 0 := by omega
      simp [h0, hle]
    · have h0 : t - n ≠ 0 := by omega
      simp [h0, hle]
  · intro t w n ht h
    rw [waitTimerDone, waitTimerCount_reload t w n h]
    have ht0 : t ≠ 0 := by omega
    simp [ht0]

/-- C3 witness: a timer of duration 2 is done after wait has been held
for 3 ticks, and is re-armed (not done) one tick after wait drops. -/
theorem C3_witness :
    waitTimerDone 2 (fun _ => true) 3 = decide (2 ≤ 3)
    ∧ waitTimerDone 2 (fun k => decide (k < 3)) 4 = false :=
  ⟨C3_amended_countdown_while_wait_held.1 2 (fun _ => true) 3 (fun _ _ => rfl),
   C3_amended_countdown_while_wait_held.2 2 (fun k => decide (k < 3)) 3
     (by decide) (by decide)⟩

/-- Two overlapping reset requests 400 ticks apart: the first held for
ticks 0 to 499, the second for ticks 400 to 899; their union keeps the
request line asserted on exactly the ticks below 900. -/
def rstOverlap (n : Nat) : Bool :=
  decide (n < 500) || (decide (400 ≤ n) && decide (n < 900))

/-- C4 counterexample: two overlapping reset requests 400 ticks apart
under the 833-tick timer leave rst_pulse low at tick 833 even though it
rose at tick 0, so the resulting high interval starting at the first
edge is shorter than 833 ticks and in particular shorter than
400 + 833 = 1233 ticks: the second request does not re-arm the timer
and does not extend the pulse. -/
theorem C4_counterexample :
    rstOverlap 0 = true ∧ rstOverlap 400 = true
    ∧ rst_pulse 833 rstOverlap 0 = true
    ∧ rst_pulse 833 rstOverlap 833 = false := by
  have hheld : ∀ k, k < 833 → rstOverlap k = true := by
    intro k hk
    simp only [rstOverlap, Bool.or_eq_true, Bool.and_eq_true, decide_eq_true_eq]
    omega
  have hc : waitTimerCount 833 rstOverlap 833 = 833 - 833 :=
    waitTimerCount_held 833 rstOverlap 833 hheld
  have hr : rstOverlap 833 = true := by
    simp only [rstOverlap, Bool.or_eq_true, Bool.and_eq_true, decide_eq_true_eq]
    omega
  refine ⟨rfl, rfl, rfl, ?_⟩
  simp [rst_pulse, waitTimerDone, hc, hr]

/-- C4 amended: re-asserting the reset request while the previous pulse
is still in flight merely keeps the timer wait input asserted; it does
not re-arm the timer and does not extend the pulse.  Two overlapping
requests 400 ticks apart under the 833-tick timer produce one
contiguous high interval of exactly 833 ticks from the first edge,
followed by a separate one-tick pulse when the request finally
deasserts at tick 900. -/
theorem C4_amended_overlap_does_not_extend :
    (∀ n, n < 900 → rst_pulse 833 rstOverlap n = decide (n < 833))
    ∧ rst_pulse 833 rstOverlap 900 = true
    ∧ rst_pulse 833 rstOverlap 901 = false := by
  have hheld : ∀ k, k < 900 → rstOverlap k = true := by
    intro k hk
    simp only [rstOverlap, Bool.or_eq_true, Bool.and_eq_true, decide_eq_true_eq]
    omega
  have hoff : ∀ k, 900 ≤ k → rstOverlap k = false := by
    intro k hk
    simp only [rstOverlap, Bool.or_eq_false_iff, Bool.and_eq_false_iff,
      decide_eq_false_iff_not]
    omega
  refine ⟨?_, ?_, ?_⟩
  · intro n hn
    have hc : waitTimerCount 833 rstOverlap n = 833 - n :=
      waitTimerCount_held 833 rstOverlap n (fun k hk => hheld k (by omega))
    have hr : rstOverlap n = true := hheld n hn
    by_cases hlt : n < 833
    · have h0 : 833 - n ≠ 0 := by omega
      simp [rst_pulse, waitTimerDone, hc, hr, h0, hlt]
    · have h0 : 833 - n = 0 := by omega
      simp [rst_pulse, waitTimerDone, hc, hr, h0, hlt]
  · have hc : waitTimerCount 833 rstOverlap 900 = 833 - 900 :=
      waitTimerCount_held 833 rstOverlap 900 hheld
    have hr : rstOverlap 900 = false := hoff 900 (by omega)
    simp [rst_pulse, waitTimerDone, hc, hr]
  · have hc : waitTimerCount 833 rstOverlap 901 = 833 :=
      waitTimerCount_reload 833 rstOverlap 900 (hoff 900 (by omega))
    have hr : rstOverlap 901 = false := hoff 901 (by omega)
    simp [rst_pulse, waitTimerDone, hc, hr]

/-- C4 witness: the amended behavior at tick 0 of the overlapping
scenario. -/
theorem C4_witness :
    rst_pulse 833 rstOverlap 0 = decide (0 < 833) :=
  C4_amended_overlap_does_not_extend.1 0 (by decide)

/-- C5: the modelled PLL locked status is false on every tick on which
rst_pulse is high or the active-low button is low; whenever it is true,
the PLL reset input (wired on line 49) has been deasserted for at least
the modeled lock latency L, including the current tick; and if the
button is held low forever, locked stays false forever regardless of
any reset request activity. -/
theorem C5_locked_never_during_reset (L t : Nat) (rst rst_n : Nat → Bool) :
    (∀ n, rst_pulse t rst n = true ∨ rst_n n = false →
        pllLocked L (pll_reset t rst rst_n) n = false)
    ∧ (∀ n, pllLocked L (pll_reset t rst rst_n) n = true →
        L ≤ n ∧ ∀ k, n - L ≤ k → k ≤ n → pll_reset t rst rst_n k = false)
    ∧ ((∀ n, rst_n n = false) →
        ∀ n, pllLocked L (pll_reset t rst rst_n) n = false) := by
  refine ⟨?_, ?_, ?_⟩
  · intro n h
    have hres : pll_reset t rst rst_n n = true := by
      rcases h with h | h <;> simp [pll_reset, h]
    simp [pllLocked, hres]
  · intro n h
    rw [pllLocked, Bool.and_eq_true] at h
    obtain ⟨h1, h2⟩ := h
    have hL : L ≤ pllLowTicks (pll_reset t rst rst_n) n := of_decide_eq_true h2
    have hn : L ≤ n := le_trans hL (pllLowTicks_le _ n)
    refine ⟨hn, ?_⟩
    intro k hk1 hk2
    rcases Nat.lt_or_eq_of_le hk2 with hlt | heq
    · exact pllLowTicks_spec _ n k (by omega) hlt
    · subst heq
      simpa using h1
  · intro hbtn n
    have hres : pll_reset t rst rst_n n = true := by
      simp [pll_reset, hbtn n]
    simp [pllLocked, hres]

/-- C5 witness: button held low forever keeps the modelled PLL unlocked
at tick 5 with latency 2 and the configured 833-tick timer. -/
theorem C5_witness :
    pllLocked 2 (pll_reset 833 (fun _ => false) (fun _ => false)) 5 = false :=
  (C5_locked_never_during_reset 2 833 (fun _ => false) (fun _ => false)).2.2
    (fun _ => rfl) 5

/-- C7: the sys clock domain, created on the PLL with the with_reset
policy enabled (line 51), is active only when the modelled PLL is
locked, and it is held in reset exactly while the PLL is not locked, so
the unlocked and locking states both keep it in reset. -/
theorem C7_sys_domain_gated_by_lock (L t : Nat) (rst rst_n : Nat → Bool) (n : Nat) :
    (cd_sys_active L (pll_reset t rst rst_n) n = true →
        pllLocked L (pll_reset t rst rst_n) n = true)
    ∧ cd_sys_in_reset true L (pll_reset t rst rst_n) n
        = !(pllLocked L (pll_reset t rst rst_n) n) := by
  constructor
  · intro h
    simpa [cd_sys_active, cd_sys_in_reset] using h
  · simp [cd_sys_in_reset]

/-- C7 witness: with zero modeled latency and no reset source asserted,
the domain is active at tick 0 and the PLL is indeed locked there. -/
theorem C7_witness :
    pllLocked 0 (pll_reset 1 (fun _ => false) (fun _ => true)) 0 = true :=
  (C7_sys_domain_gated_by_lock 0 1 (fun _ => false) (fun _ => true) 0).1
    (by decide)

end EfinixT8F81
